import Mathlib

set_option maxRecDepth 40000

/- Verification development for the Flipper Zero CO2 monitor front-end
   (src/pages/Index.tsx). The file shallowly embeds the session segmenter
   (`parseCSVData`), the transcript-extraction read loop (`readFlipperFile`,
   including its CSV cleanup pass) and `disconnect`, and proves the
   specified properties about them.

   Modelling conventions:
   - JavaScript strings are Lean `String`s (the transcripts are ASCII, so
     UTF-16 units and Lean chars agree).
   - `parseInt` returning `NaN` is modelled by `Option Int` with `none`
     for `NaN`; `NaN`-propagating arithmetic and comparisons are modelled
     explicitly (`nanSub`, `nanGt300`).
   - Locale-formatted display values (`Date(...).toLocaleString()`,
     `toLocaleTimeString()`) are pure functions of the underlying epoch
     value, so they are represented by that underlying value
     (`Option Int`, the `parseInt` of the timestamp field); the
     display-only `formattedTime` field carries no additional information
     and is omitted. -/

namespace ZeroDataExplorer

/-- Character class of the whitespace `parseInt` skips. -/
def jsWhitespace (c : Char) : Bool :=
  c == ' ' || c == '\t' || c == '\n' || c == '\r' || c == '\x0b' || c == '\x0c'

/-- Hexadecimal digit test, for the `0x` prefix of `parseInt`. -/
def isHexDigitCh (c : Char) : Bool :=
  c.isDigit || ('a' ≤ c && c ≤ 'f') || ('A' ≤ c && c ≤ 'F')

/-- Value of a hexadecimal digit. -/
def hexVal (c : Char) : Nat :=
  if c.isDigit then c.toNat - 48
  else if 'a' ≤ c && c ≤ 'f' then c.toNat - 87
  else c.toNat - 55

/-- Accumulate a digit list in the given base. -/
def digitsVal (base : Nat) (dval : Char → Nat) (ds : List Char) : Nat :=
  ds.foldl (fun acc c => acc * base + dval c) 0

/-- JavaScript `parseInt(s)` (radix unspecified): skip leading whitespace,
optional sign, `0x`/`0X` switches to base 16, longest digit prefix; `none`
models `NaN` (no digits). -/
def jsParseIntChars (cs0 : List Char) : Option Int :=
  let cs := cs0.dropWhile jsWhitespace
  let sgn : Int := match cs with
    | '-' :: _ => -1
    | _ => 1
  let cs1 : List Char := match cs with
    | '-' :: rest => rest
    | '+' :: rest => rest
    | _ => cs
  match cs1 with
  | '0' :: x :: rest =>
    if x == 'x' || x == 'X' then
      let ds := rest.takeWhile isHexDigitCh
      if ds.isEmpty then none else some (sgn * (digitsVal 16 hexVal ds : Nat))
    else
      let ds := cs1.takeWhile Char.isDigit
      if ds.isEmpty then none else some (sgn * (digitsVal 10 (fun c => c.toNat - 48) ds : Nat))
  | _ =>
    let ds := cs1.takeWhile Char.isDigit
    if ds.isEmpty then none else some (sgn * (digitsVal 10 (fun c => c.toNat - 48) ds : Nat))

/-- JavaScript `parseInt` on a string. -/
def jsParseInt (s : String) : Option Int := jsParseIntChars s.toList

/-- `needle` occurs as a contiguous sublist of `hay`. -/
def subOccurs (needle : List Char) : List Char → Bool
  | [] => needle.isEmpty
  | c :: t => needle.isPrefixOf (c :: t) || subOccurs needle t

/-- Fuelled worker for `jsSplit`; the fuel is the input length, enough for
the whole scan, and keeps the recursion structural. `acc` is the current
piece, reversed. -/
def jsSplitF (sep : List Char) : Nat → List Char → List Char → List (List Char)
  | 0, l, acc => [acc.reverse ++ l]
  | fuel + 1, l, acc =>
    match l with
    | [] => [acc.reverse]
    | c :: t =>
      if !sep.isEmpty && sep.isPrefixOf (c :: t) then
        acc.reverse :: jsSplitF sep fuel (t.drop (sep.length - 1)) []
      else
        jsSplitF sep fuel t (c :: acc)

/-- JavaScript `s.split(sep)` for a non-empty separator string: cut at each
non-overlapping occurrence of `sep`, scanning left to right (the source
only splits on `"\n"` and `","`). -/
def jsSplit (s sep : String) : List String :=
  (jsSplitF sep.toList s.toList.length s.toList []).map (fun cs => String.mk cs)

/-- JavaScript `s.trim()`: strip leading and trailing whitespace. -/
def jsTrim (s : String) : String :=
  String.mk (((s.toList.dropWhile jsWhitespace).reverse.dropWhile jsWhitespace).reverse)

/-- JavaScript `parts.join(sep)`. -/
def jsJoin (sep : String) : List String → String
  | [] => ""
  | [x] => x
  | x :: y :: xs => x ++ sep ++ jsJoin sep (y :: xs)

/-- JavaScript `hay.includes(needle)`. -/
def jsIncludes (hay needle : String) : Bool := subOccurs needle.toList hay.toList

/-- JavaScript `hay.indexOf(needle)`: index of the first occurrence
(`none` models `-1`). -/
def firstOccIdx (needle : List Char) : List Char → Option Nat
  | [] => if needle.isEmpty then some 0 else none
  | c :: t => if needle.isPrefixOf (c :: t) then some 0 else (firstOccIdx needle t).map (· + 1)

/-- One parsed CSV data row (`CO2DataPoint` in the source): the raw timestamp
field and `parseInt(co2_ppm)` (with `none` for `NaN`). -/
structure CO2DataPoint where
  timestamp : String
  co2_ppm : Option Int
  deriving Repr, DecidableEq

/-- A logging session (`LoggingSession` in the source). `startTime`/`endTime`
are `new Date(parseInt(ts) * 1000).toLocaleString()`, represented by the
underlying `parseInt(ts)` value. -/
structure LoggingSession where
  id : Nat
  startTime : Option Int
  endTime : Option Int
  data : List CO2DataPoint
  deriving Repr, DecidableEq

/-- The non-blank lines of the CSV text:
`csvContent.split('\n').filter(line => line.trim())`. -/
def csvLines (csvContent : String) : List String :=
  (jsSplit csvContent "\n").filter (fun line => jsTrim line ≠ "")

/-- One iteration of the row loop (lines 104-114 of the source):
`const [timestamp, co2_ppm] = lines[i].split(',')`, then push the point
when both destructured fields are truthy (defined and non-empty). -/
def parseRow (line : String) : Option CO2DataPoint :=
  match jsSplit line "," with
  | [] => none
  | [_] => none
  | t :: c :: _ => if t ≠ "" ∧ c ≠ "" then some ⟨t, jsParseInt c⟩ else none

/-- The data points parsed from the lines after the header. -/
def dataPointsOf (csvContent : String) : List CO2DataPoint :=
  ((csvLines csvContent).drop 1).filterMap parseRow

/-- `NaN`-propagating subtraction of two `parseInt` results. -/
def nanSub (a b : Option Int) : Option Int :=
  match a, b with
  | some x, some y => some (x - y)
  | _, _ => none

/-- JavaScript `timeDiff > 300`: `false` when `timeDiff` is `NaN`. -/
def nanGt300 : Option Int → Bool
  | some d => 300 < d
  | none => false

/-- Build the session pushed by the source (id `sessions.length`, start/end
from the first/last point of the current group, a copy of the group). The
source only ever builds a session from a non-empty group; the `none`
defaults are unreachable there. -/
def mkSession (n : Nat) (cur : List CO2DataPoint) : LoggingSession :=
  { id := n
    startTime := match cur with
      | [] => none
      | q :: _ => jsParseInt q.timestamp
    endTime := match cur.getLast? with
      | none => none
      | some q => jsParseInt q.timestamp
    data := cur }

/-- The grouping loop of `parseCSVData` (lines 117-159): `ss` is the
`sessions` accumulator, `cur` the in-progress `currentSession`; a new
session starts when the timestamp gap strictly exceeds 300, and the final
non-empty group is flushed. -/
def groupLoop : List CO2DataPoint → List LoggingSession → List CO2DataPoint → List LoggingSession
  | [], ss, cur => if cur.isEmpty then ss else ss ++ [mkSession ss.length cur]
  | p :: rest, ss, cur =>
    match cur.getLast? with
    | none => groupLoop rest ss [p]
    | some lastPoint =>
      if nanGt300 (nanSub (jsParseInt p.timestamp) (jsParseInt lastPoint.timestamp)) then
        groupLoop rest (ss ++ [mkSession ss.length cur]) [p]
      else
        groupLoop rest ss (cur ++ [p])

/-- Group a flat point sequence into sessions. -/
def groupSessions (dps : List CO2DataPoint) : List LoggingSession :=
  groupLoop dps [] []

/-- `parseCSVData` (lines 97-162): split into non-blank lines, return `[]`
for at most one line (no data or just header), otherwise parse the rows
after the header and group them into sessions. -/
def parseCSVData (csvContent : String) : List LoggingSession :=
  if (csvLines csvContent).length ≤ 1 then []
  else groupSessions (dataPointsOf csvContent)

/-- Concatenation of the sessions' data lists, in order. -/
def sessionJoin (ss : List LoggingSession) : List CO2DataPoint :=
  (ss.map (fun s => s.data)).flatten

/-- One no-gap step between consecutive samples: both timestamps parse as
integers, are non-decreasing, and differ by at most 300 seconds. -/
def noGapStep (a b : CO2DataPoint) : Prop :=
  ∃ x y : Int, jsParseInt a.timestamp = some x ∧ jsParseInt b.timestamp = some y ∧
    x ≤ y ∧ y - x ≤ 300

/-! ### Transcript extractor (`readFlipperFile`, lines 164-340) -/

/-- ANSI parameter characters, the `[0-9;]*` of the stripping regex. -/
def isAnsiParam (c : Char) : Bool := c.isDigit || c == ';'

/-- If an ANSI escape sequence `ESC [ params m` starts at the head, return
the remainder after it (the regex `\x1b\[[0-9;]*m`; `[0-9;]*` is greedy and
`m` is not a parameter character, so greedy matching is exact). -/
def ansiTail : List Char → Option (List Char)
  | '\x1b' :: '[' :: rest =>
    match rest.dropWhile isAnsiParam with
    | 'm' :: tail => some tail
    | _ => none
  | _ => none

/-- Fuelled worker for `stripAnsi`: scan left to right, removing each ANSI
escape sequence that starts at the current position. Every step consumes at
least one character, so fuel equal to the length is enough. -/
def stripAnsiF : Nat → List Char → List Char
  | 0, l => l
  | fuel + 1, l =>
    match ansiTail l with
    | some tail => stripAnsiF fuel tail
    | none =>
      match l with
      | [] => []
      | c :: rest => c :: stripAnsiF fuel rest

/-- JavaScript `s.replace(/\x1b\[[0-9;]*m/g, '')`. -/
def stripAnsi (s : String) : String := String.mk (stripAnsiF s.toList.length s.toList)

/-- JavaScript `s.replace(/\r/g, '')`. -/
def stripCR (s : String) : String := String.mk (s.toList.filter (fun c => c != '\r'))

/-- The per-chunk cleaned text (line 201):
`text.replace(/\x1b\[[0-9;]*m/g, '').replace(/\r/g, '')`. -/
def cleanChunk (text : String) : String := stripCR (stripAnsi text)

/-- Mutable state of the read loop across chunks (lines 178-182):
`commandComplete` is represented by the `complete` step outcome. -/
structure LoopState where
  buffer : String
  csvContent : String
  foundHeader : Bool
  commandEchoed : Bool
  deriving Repr, DecidableEq

/-- Outcome of one iteration of the `while (!commandComplete)` loop body. -/
inductive StepOutcome where
  | next (st : LoopState)
  | complete (st : LoopState)
  | errorReturn (line : Option String)
  | malformedReturn
  deriving Repr, DecidableEq

/-- The case-sensitive error-marker set of the `if` at lines 217-222. -/
def errMarkers : List String :=
  ["File not found", "Error", "Invalid", "No such file", "Cannot open", "Permission denied"]

/-- The same set in the order the `find` callback lists it (lines 224-231). -/
def errMarkersFind : List String :=
  ["Error", "File not found", "Invalid", "No such file", "Cannot open", "Permission denied"]

/-- Does the raw buffer contain one of the error markers? -/
def hasErrorMarker (buffer : String) : Bool :=
  errMarkers.any (fun m => jsIncludes buffer m)

/-- `buffer.split('\n').find(line => ...)`: the first line containing a
marker (`none` models `undefined`). -/
def findMarkerLine (buffer : String) : Option String :=
  (jsSplit buffer "\n").find? (fun line => errMarkersFind.any (fun m => jsIncludes line m))

/-- Seed the CSV accumulator from the header onward (lines 242-246): the
ANSI-stripped buffer from `indexOf('Timestamp,CO2_PPM')`; when the index is
`-1` the accumulator is left unchanged. -/
def headerSeed (cleanBuffer oldCsv : String) : String :=
  match firstOccIdx "Timestamp,CO2_PPM".toList cleanBuffer.toList with
  | some i => String.mk (cleanBuffer.toList.drop i)
  | none => oldCsv

/-- The buffer cap at lines 269-272: keep only the last 50000 characters
once the buffer exceeds 100000. -/
def trimBuffer (b : String) : String :=
  if b.length > 100000 then String.mk (b.toList.drop (b.length - 50000)) else b

/-- One iteration of the read loop body (lines 190-273) on a decoded chunk
`text`. Before the command echo is seen, only the echo check runs (and
detecting the echo clears the buffer and `continue`s, skipping the cap).
After the echo: error markers are checked first on the raw buffer, then the
header check seeds or extends the CSV accumulator, then the prompt check
(`'>:'` or `'>'`) completes, then the header-never-found 1000-character
guard, then the buffer cap. -/
def processChunk (st : LoopState) (text : String) : StepOutcome :=
  let buffer := st.buffer ++ text
  let cleanText := cleanChunk text
  if !st.commandEchoed then
    if jsIncludes buffer "co2_log.csv" then
      .next ⟨"", st.csvContent, st.foundHeader, true⟩
    else
      .next ⟨trimBuffer buffer, st.csvContent, st.foundHeader, st.commandEchoed⟩
  else
    if hasErrorMarker buffer then
      .errorReturn (findMarkerLine buffer)
    else
      let headerHit := !st.foundHeader &&
        (jsIncludes buffer "Timestamp,CO2_PPM" || jsIncludes cleanText "Timestamp,CO2_PPM")
      let fh := st.foundHeader || headerHit
      let csv :=
        if headerHit then headerSeed (stripAnsi buffer) st.csvContent
        else if st.foundHeader then st.csvContent ++ cleanText
        else st.csvContent
      if fh && (jsIncludes buffer ">:" || jsIncludes buffer ">") then
        .complete ⟨buffer, csv, fh, st.commandEchoed⟩
      else if !fh && buffer.length > 1000 then
        .malformedReturn
      else
        .next ⟨trimBuffer buffer, csv, fh, st.commandEchoed⟩

/-- The row-validity test of the cleanup loop (line 306): exactly two
comma-separated fields, both parsing as integers. -/
def intPairLine (t : String) : Bool :=
  match jsSplit t "," with
  | [a, b] => (jsParseInt a).isSome && (jsParseInt b).isSome
  | _ => false

/-- The CSV cleanup loop of `readFlipperFile` (lines 282-314): before the
header, blank lines and any other line are dropped; the header line is
emitted (and flips `headerFound`); after the header a comma-line without
`'>'` or `'storage'` is emitted only when it passes `intPairLine` (and is
otherwise skipped), a line containing `'>'` or trimming to empty `break`s
the scan, and any other line is skipped. -/
def cleanLoop : Bool → List String → List String
  | _, [] => []
  | headerFound, line :: rest =>
    let t := jsTrim line
    if !headerFound && t == "" then cleanLoop headerFound rest
    else if t == "Timestamp,CO2_PPM" then t :: cleanLoop true rest
    else if headerFound then
      if jsIncludes t "," && !jsIncludes t ">" && !jsIncludes t "storage" then
        if intPairLine t then t :: cleanLoop headerFound rest
        else cleanLoop headerFound rest
      else if jsIncludes t ">" || t == "" then []
      else cleanLoop headerFound rest
    else cleanLoop headerFound rest

/-- Terminal observable outcome of one `readFlipperFile` call, keyed to the
toast each return path shows. `stalled st` models the loop blocked forever
in `await readerRef.current.read()` after consuming every delivered chunk
without reaching a terminal branch: the call produces no result, and since
`clearTimeout` is only reached on the terminal paths, the armed 45-second
timer eventually fires `timeoutCallback`. -/
inductive ReadResult where
  | success (sessions : List LoggingSession)
  | noValidData
  | emptyCSV
  | noData
  | deviceError (line : Option String)
  | malformedResponse
  | stalled (st : LoopState)
  deriving Repr, DecidableEq

/-- Post-loop processing (lines 275-335): require a non-empty accumulator
containing the header, clean it up, and segment when more than the header
line survived. -/
def finishRead (st : LoopState) : ReadResult :=
  if (st.csvContent != "") && jsIncludes st.csvContent "Timestamp,CO2_PPM" then
    let cleanLines := cleanLoop false (jsSplit st.csvContent "\n")
    if cleanLines.length > 1 then
      let parsedSessions := parseCSVData (jsJoin "\n" cleanLines)
      if parsedSessions.length > 0 then .success parsedSessions else .noValidData
    else .emptyCSV
  else .noData

/-- Run the read loop over the chunks the transport delivers, in arrival
order; exhausting the chunks in a non-terminal state leaves the loop
awaiting the next read forever (`stalled`). -/
def runChunks : LoopState → List String → ReadResult
  | st, [] => .stalled st
  | st, text :: rest =>
    match processChunk st text with
    | .next st2 => runChunks st2 rest
    | .complete st2 => finishRead st2
    | .errorReturn line => .deviceError line
    | .malformedReturn => .malformedResponse

/-- Initial loop state (lines 178-182). -/
def initLoopState : LoopState := ⟨"", "", false, false⟩

/-- One whole `readFlipperFile` call on a delivered chunk sequence. -/
def readOutcome (chunks : List String) : ReadResult := runChunks initLoopState chunks

/-- The toast text of the deadline callback (line 187). -/
def timeoutToast : String := "Timeout reading file from Flipper Zero"

/-- Model of the `setTimeout` callback at lines 185-188: it only logs and
shows a toast. It does not set `commandComplete`, does not cancel the
pending read, and does not return from `readFlipperFile`: the loop state is
returned unchanged. -/
def timeoutCallback (st : LoopState) : LoopState × List String := (st, [timeoutToast])

/-- The command sent to the device (line 170); its echo contains the
distinguishing substring `co2_log.csv`. -/
def storageCmd : String := "storage read /ext/apps_data/co2_logger/co2_log.csv\n"

/-! ### Connection state and `disconnect` (lines 55-62, 384-403) -/

/-- Connection state: the port, the reader/writer refs (opaque handles) and
the connected flag. -/
structure ConnState where
  flipperPort : Option Nat
  reader : Option Nat
  writer : Option Nat
  isConnected : Bool
  deriving Repr, DecidableEq

/-- `disconnect` (lines 384-403). The three Boolean parameters say whether
the awaited external calls `reader.cancel()`, `writer.close()` and
`port.close()` throw; a throw is caught by the surrounding `try`/`catch`
(which only logs), leaving the state as mutated up to that point. With no
active port the whole body is skipped. The second component lists the
toasts shown. -/
def disconnect (st : ConnState) (cancelFails closeWriterFails closePortFails : Bool) :
    ConnState × List String :=
  match st.flipperPort with
  | none => (st, [])
  | some _ =>
    if st.reader.isSome && cancelFails then (st, [])
    else
      let st1 : ConnState := { st with reader := none }
      if st1.writer.isSome && closeWriterFails then (st1, [])
      else
        let st2 : ConnState := { st1 with writer := none }
        if closePortFails then (st2, [])
        else ({ st2 with flipperPort := none, isConnected := false },
              ["Disconnected from Flipper Zero"])

/-! ### Invariants of the grouping loop -/

theorem sessionJoin_append (a b : List LoggingSession) :
    sessionJoin (a ++ b) = sessionJoin a ++ sessionJoin b := by
  simp [sessionJoin]

theorem groupLoop_join (dps : List CO2DataPoint) :
    ∀ ss cur, sessionJoin (groupLoop dps ss cur) = sessionJoin ss ++ cur ++ dps := by
  induction dps with
  | nil =>
    intro ss cur
    by_cases h : cur = []
    · simp [groupLoop, h]
    · simp [groupLoop, h, sessionJoin_append, sessionJoin, mkSession]
  | cons p rest ih =>
    intro ss cur
    rcases hc : cur.getLast? with _ | lastPoint
    · have hcur : cur = [] := List.getLast?_eq_none_iff.mp hc
      subst hcur
      simp [groupLoop, ih]
    · by_cases hgap :
        nanGt300 (nanSub (jsParseInt p.timestamp) (jsParseInt lastPoint.timestamp)) = true
      · have hstep : groupLoop (p :: rest) ss cur
            = groupLoop rest (ss ++ [mkSession ss.length cur]) [p] := by
          simp [groupLoop, hc, hgap]
        rw [hstep, ih]
        simp [sessionJoin_append, sessionJoin, mkSession]
      · simp only [Bool.not_eq_true] at hgap
        have hstep : groupLoop (p :: rest) ss cur = groupLoop rest ss (cur ++ [p]) := by
          simp [groupLoop, hc, hgap]
        rw [hstep, ih]
        simp

theorem groupLoop_ids (dps : List CO2DataPoint) :
    ∀ ss cur, ss.map (fun s => s.id) = List.range ss.length →
      (groupLoop dps ss cur).map (fun s => s.id) = List.range (groupLoop dps ss cur).length := by
  induction dps with
  | nil =>
    intro ss cur h
    by_cases hc : cur = []
    · simpa [groupLoop, hc] using h
    · simp [groupLoop, hc, mkSession, h, List.range_succ]
  | cons p rest ih =>
    intro ss cur h
    rcases hc : cur.getLast? with _ | lastPoint
    · have hcur : cur = [] := List.getLast?_eq_none_iff.mp hc
      subst hcur
      simpa [groupLoop] using ih ss [p] h
    · by_cases hgap :
        nanGt300 (nanSub (jsParseInt p.timestamp) (jsParseInt lastPoint.timestamp)) = true
      · have h2 : (ss ++ [mkSession ss.length cur]).map (fun s => s.id)
            = List.range (ss ++ [mkSession ss.length cur]).length := by
          simp [mkSession, h, List.range_succ]
        simpa [groupLoop, hc, hgap] using ih (ss ++ [mkSession ss.length cur]) [p] h2
      · simp only [Bool.not_eq_true] at hgap
        simpa [groupLoop, hc, hgap] using ih ss (cur ++ [p]) h

theorem groupLoop_nonempty (dps : List CO2DataPoint) :
    ∀ ss cur, (∀ s ∈ ss, s.data ≠ []) →
      ∀ s ∈ groupLoop dps ss cur, s.data ≠ [] := by
  induction dps with
  | nil =>
    intro ss cur h s hs
    by_cases hc : cur = []
    · simp [groupLoop, hc] at hs
      exact h s hs
    · simp [groupLoop, hc] at hs
      rcases hs with hs | hs
      · exact h s hs
      · subst hs
        simpa [mkSession] using hc
  | cons p rest ih =>
    intro ss cur h s hs
    rcases hc : cur.getLast? with _ | lastPoint
    · have hcur : cur = [] := List.getLast?_eq_none_iff.mp hc
      subst hcur
      simp only [groupLoop] at hs
      exact ih ss [p] h s hs
    · have hcur : cur ≠ [] := by
        intro hcc
        simp [hcc] at hc
      by_cases hgap :
        nanGt300 (nanSub (jsParseInt p.timestamp) (jsParseInt lastPoint.timestamp)) = true
      · simp only [groupLoop, hc, hgap, if_true] at hs
        refine ih (ss ++ [mkSession ss.length cur]) [p] ?_ s hs
        intro s2 hs2
        rcases List.mem_append.mp hs2 with h2 | h2
        · exact h s2 h2
        · simp at h2
          subst h2
          simpa [mkSession] using hcur
      · simp only [Bool.not_eq_true] at hgap
        simp only [groupLoop, hc, hgap, if_false, Bool.false_eq_true] at hs
        exact ih ss (cur ++ [p]) h s hs

theorem groupLoop_shape (dps : List CO2DataPoint) :
    ∀ ss cur s, s ∈ groupLoop dps ss cur → s ∈ ss ∨ ∃ n c, s = mkSession n c := by
  induction dps with
  | nil =>
    intro ss cur s hs
    by_cases hc : cur = []
    · simp [groupLoop, hc] at hs
      exact Or.inl hs
    · simp [groupLoop, hc] at hs
      rcases hs with hs | hs
      · exact Or.inl hs
      · exact Or.inr ⟨ss.length, cur, hs⟩
  | cons p rest ih =>
    intro ss cur s hs
    rcases hc : cur.getLast? with _ | lastPoint
    · have hcur : cur = [] := List.getLast?_eq_none_iff.mp hc
      subst hcur
      simp only [groupLoop] at hs
      exact ih ss [p] s hs
    · by_cases hgap :
        nanGt300 (nanSub (jsParseInt p.timestamp) (jsParseInt lastPoint.timestamp)) = true
      · simp only [groupLoop, hc, hgap, if_true] at hs
        rcases ih _ _ s hs with h1 | h1
        · rcases List.mem_append.mp h1 with h2 | h2
          · exact Or.inl h2
          · simp at h2
            exact Or.inr ⟨ss.length, cur, h2⟩
        · exact Or.inr h1
      · simp only [Bool.not_eq_true] at hgap
        simp only [groupLoop, hc, hgap, if_false, Bool.false_eq_true] at hs
        exact ih ss (cur ++ [p]) s hs

theorem groupLoop_oneSession (dps : List CO2DataPoint) :
    ∀ ss cur, cur ≠ [] → List.Chain' noGapStep (cur ++ dps) →
      groupLoop dps ss cur = ss ++ [mkSession ss.length (cur ++ dps)] := by
  induction dps with
  | nil =>
    intro ss cur hne _
    simp [groupLoop, hne]
  | cons p rest ih =>
    intro ss cur hne hch
    have hex : ∃ lp, cur.getLast? = some lp := by
      rcases hgl : cur.getLast? with _ | lp
      · exact absurd (List.getLast?_eq_none_iff.mp hgl) hne
      · exact ⟨lp, rfl⟩
    obtain ⟨lastPoint, hc⟩ := hex
    have hrel : noGapStep lastPoint p := by
      have h3 := (List.chain'_append.mp hch).2.2
      exact h3 lastPoint (by simp [hc]) p (by simp)
    have hgap :
        nanGt300 (nanSub (jsParseInt p.timestamp) (jsParseInt lastPoint.timestamp)) = false := by
      obtain ⟨x, y, hx, hy, hxy, hle⟩ := hrel
      simp only [nanSub, hx, hy, nanGt300, decide_eq_false_iff_not, not_lt]
      omega
    have hch2 : List.Chain' noGapStep ((cur ++ [p]) ++ rest) := by
      simpa using hch
    have hrec := ih ss (cur ++ [p]) (by simp) hch2
    simp [groupLoop, hc, hgap, hrec]

/-! ### Claim theorems for the segmenter -/

/-- **C1**: the segmenter starts a new session exactly when the timestamp
gap strictly exceeds 300 seconds. First conjunct: any CSV whose parsed
sample sequence is non-empty with non-decreasing integer timestamps and no
gap over 300 yields exactly one session holding the whole sequence. Second
and third conjuncts: timestamps `[0,100,200,600,700]` give the two sessions
`[0,100,200]` and `[600,700]`, and a gap of exactly 300 stays one session
of two samples. -/
theorem claim_C1_gap_segmentation :
    (∀ csvContent : String, dataPointsOf csvContent ≠ [] →
        List.Chain' noGapStep (dataPointsOf csvContent) →
        parseCSVData csvContent = [mkSession 0 (dataPointsOf csvContent)]) ∧
    parseCSVData "Timestamp,CO2_PPM\n0,400\n100,401\n200,402\n600,403\n700,404" =
      [⟨0, some 0, some 200, [⟨"0", some 400⟩, ⟨"100", some 401⟩, ⟨"200", some 402⟩]⟩,
       ⟨1, some 600, some 700, [⟨"600", some 403⟩, ⟨"700", some 404⟩]⟩] ∧
    parseCSVData "Timestamp,CO2_PPM\n0,400\n300,401" =
      [⟨0, some 0, some 300, [⟨"0", some 400⟩, ⟨"300", some 401⟩]⟩] := by
  refine ⟨?_, by decide, by decide⟩
  intro csv hne hch
  have hlen : ¬(csvLines csv).length ≤ 1 := by
    intro hle
    apply hne
    unfold dataPointsOf
    rw [List.drop_eq_nil_iff.mpr hle]
    rfl
  unfold parseCSVData groupSessions
  rw [if_neg hlen]
  rcases hdp : dataPointsOf csv with _ | ⟨p, rest⟩
  · exact absurd hdp hne
  · rw [hdp] at hch
    have h1 : groupLoop (p :: rest) [] [] = groupLoop rest [] [p] := by
      simp [groupLoop]
    rw [h1, groupLoop_oneSession rest [] [p] (by simp) (by simpa using hch)]
    simp

/-- Witness for C1 at the 300-second-gap CSV. -/
theorem claim_C1_gap_segmentation_witness :
    dataPointsOf "Timestamp,CO2_PPM\n0,400\n300,401" ≠ [] ∧
    parseCSVData "Timestamp,CO2_PPM\n0,400\n300,401" =
      [mkSession 0 (dataPointsOf "Timestamp,CO2_PPM\n0,400\n300,401")] :=
  ⟨by decide,
   claim_C1_gap_segmentation.1 "Timestamp,CO2_PPM\n0,400\n300,401" (by decide)
     (by
       have h1 : dataPointsOf "Timestamp,CO2_PPM\n0,400\n300,401" =
           [⟨"0", some 400⟩, ⟨"300", some 401⟩] := by decide
       rw [h1]
       exact List.chain'_cons.mpr
         ⟨⟨0, 300, by decide, by decide, by decide, by decide⟩, List.chain'_singleton _⟩)⟩

/-- **C5**: at most one non-blank line (header only, or nothing) yields an
empty session list, and an empty session list is exactly the outcome when
no data row parses — the only signal the caller gets. -/
theorem claim_C5_empty_result (csvContent : String) :
    ((csvLines csvContent).length ≤ 1 → parseCSVData csvContent = []) ∧
    (parseCSVData csvContent = [] ↔ dataPointsOf csvContent = []) := by
  constructor
  · intro h
    unfold parseCSVData
    rw [if_pos h]
  · unfold parseCSVData
    by_cases h : (csvLines csvContent).length ≤ 1
    · rw [if_pos h]
      constructor
      · intro _
        unfold dataPointsOf
        rw [List.drop_eq_nil_iff.mpr h]
        rfl
      · intro _
        rfl
    · rw [if_neg h]
      unfold groupSessions
      constructor
      · intro hgl
        have hj := groupLoop_join (dataPointsOf csvContent) [] []
        rw [hgl] at hj
        simpa [sessionJoin] using hj.symm
      · intro hdp
        rw [hdp]
        rfl

/-- Witness for C5 at a header-only CSV. -/
theorem claim_C5_empty_result_witness :
    (csvLines "Timestamp,CO2_PPM").length ≤ 1 ∧ parseCSVData "Timestamp,CO2_PPM" = [] :=
  ⟨by decide, (claim_C5_empty_result "Timestamp,CO2_PPM").1 (by decide)⟩

/-- **C7**: every one-sample session has equal start and end times, and the
CSV `"Timestamp,CO2_PPM\n0,400\n610,420\n"` yields exactly two one-sample
sessions with equal start and end times. -/
theorem claim_C7_single_sample_sessions :
    (∀ csvContent : String, ∀ s ∈ parseCSVData csvContent,
        s.data.length = 1 → s.startTime = s.endTime) ∧
    parseCSVData "Timestamp,CO2_PPM\n0,400\n610,420\n" =
      [⟨0, some 0, some 0, [⟨"0", some 400⟩]⟩,
       ⟨1, some 610, some 610, [⟨"610", some 420⟩]⟩] := by
  refine ⟨?_, by decide⟩
  intro csv s hs hlen
  have hshape : s ∈ ([] : List LoggingSession) ∨ ∃ n c, s = mkSession n c := by
    unfold parseCSVData groupSessions at hs
    by_cases h : (csvLines csv).length ≤ 1
    · rw [if_pos h] at hs
      exact Or.inl hs
    · rw [if_neg h] at hs
      exact groupLoop_shape (dataPointsOf csv) [] [] s hs
  rcases hshape with h | ⟨n, c, rfl⟩
  · simp at h
  · rcases c with _ | ⟨q, c2⟩
    · simp [mkSession] at hlen
    · rcases c2 with _ | ⟨q2, c3⟩
      · simp [mkSession]
      · simp [mkSession] at hlen

/-- Witness for C7 at the first session of the two-session CSV. -/
theorem claim_C7_single_sample_sessions_witness :
    (⟨0, some 0, some 0, [⟨"0", some 400⟩]⟩ : LoggingSession) ∈
        parseCSVData "Timestamp,CO2_PPM\n0,400\n610,420\n" ∧
    (⟨0, some 0, some 0, [⟨"0", some 400⟩]⟩ : LoggingSession).startTime =
      (⟨0, some 0, some 0, [⟨"0", some 400⟩]⟩ : LoggingSession).endTime :=
  ⟨by decide,
   claim_C7_single_sample_sessions.1 "Timestamp,CO2_PPM\n0,400\n610,420\n"
     ⟨0, some 0, some 0, [⟨"0", some 400⟩]⟩ (by decide) (by decide)⟩

/-- **C10**: for every input CSV string the returned sessions partition the
parsed sample sequence — concatenating their data lists gives exactly the
parsed points in order, every session is non-empty, and session ids are the
zero-based positions in the output list. -/
theorem claim_C10_partition (csvContent : String) :
    sessionJoin (parseCSVData csvContent) = dataPointsOf csvContent ∧
    (parseCSVData csvContent).all (fun s => !s.data.isEmpty) = true ∧
    (parseCSVData csvContent).map (fun s => s.id) =
      List.range (parseCSVData csvContent).length := by
  unfold parseCSVData groupSessions
  by_cases h : (csvLines csvContent).length ≤ 1
  · rw [if_pos h]
    have hdp : dataPointsOf csvContent = [] := by
      unfold dataPointsOf
      rw [List.drop_eq_nil_iff.mpr h]
      rfl
    simp [sessionJoin, hdp]
  · rw [if_neg h]
    refine ⟨?_, ?_, ?_⟩
    · simpa [sessionJoin] using groupLoop_join (dataPointsOf csvContent) [] []
    · rw [List.all_eq_true]
      intro s hs
      have hne := groupLoop_nonempty (dataPointsOf csvContent) [] [] (by simp) s hs
      simpa using hne
    · exact groupLoop_ids (dataPointsOf csvContent) [] [] (by simp)

/-! ### Claim theorems for the transcript extractor -/

/-- **C6**: after the command echo, an error marker in the raw buffer makes
the chunk step abort immediately with the device-error outcome carrying the
first matching line of the buffer, whatever the header flag and accumulated
CSV hold; and a transcript whose post-echo text contains `"Error"` together
with the header and a prompt character yields `deviceError` (never
`success`), because the marker check precedes the header and prompt
checks. -/
theorem claim_C6_error_marker_aborts :
    (∀ st text, st.commandEchoed = true → hasErrorMarker (st.buffer ++ text) = true →
        processChunk st text = .errorReturn (findMarkerLine (st.buffer ++ text))) ∧
    readOutcome [storageCmd, "Timestamp,CO2_PPM\nError\n>"] = .deviceError (some "Error") := by
  refine ⟨?_, by decide⟩
  intro st text hecho hmark
  simp [processChunk, hecho, hmark]

/-- Witness for C6: a bare post-echo chunk containing a marker aborts. -/
theorem claim_C6_error_marker_aborts_witness :
    hasErrorMarker ("" ++ "Invalid arg") = true ∧
    processChunk ⟨"", "", false, true⟩ "Invalid arg" =
      .errorReturn (findMarkerLine ("" ++ "Invalid arg")) :=
  ⟨by decide,
   claim_C6_error_marker_aborts.1 ⟨"", "", false, true⟩ "Invalid arg" rfl (by decide)⟩

/-- **C8**: after the command echo, when the header has not been found, the
chunk contains no marker and no header, and the buffer has grown past 1000
characters, the step aborts with the malformed-response outcome; and the
transcript whose post-echo payload is 1001 junk characters yields
`malformedResponse`. -/
theorem claim_C8_header_ceiling :
    (∀ st text, st.commandEchoed = true → st.foundHeader = false →
        hasErrorMarker (st.buffer ++ text) = false →
        jsIncludes (st.buffer ++ text) "Timestamp,CO2_PPM" = false →
        jsIncludes (cleanChunk text) "Timestamp,CO2_PPM" = false →
        (st.buffer ++ text).length > 1000 →
        processChunk st text = .malformedReturn) ∧
    readOutcome [storageCmd, String.mk (List.replicate 1001 'x')] = .malformedResponse := by
  refine ⟨?_, by decide⟩
  intro st text hecho hfh hmark hh1 hh2 hlen
  have hlen2 : 1000 < st.buffer.length + text.length := by simpa using hlen
  simp [processChunk, hecho, hfh, hmark, hh1, hh2, hlen2]

/-- Witness for C8 at the 1001-character junk chunk. -/
theorem claim_C8_header_ceiling_witness :
    ("" ++ String.mk (List.replicate 1001 'x')).length > 1000 ∧
    processChunk ⟨"", "", false, true⟩ (String.mk (List.replicate 1001 'x')) =
      .malformedReturn :=
  ⟨by decide,
   claim_C8_header_ceiling.1 ⟨"", "", false, true⟩ (String.mk (List.replicate 1001 'x'))
     rfl rfl (by decide) (by decide) (by decide) (by decide)⟩

/-- **C2** (code behaviour at the deadline): on the transcript that stalls
right after the command echo, the read loop is left blocked awaiting the
next chunk (`stalled`) — no terminal result is ever produced — and the
deadline callback returns the loop state unchanged, its only effect being
the timeout toast. The operation is never aborted by the timer: `clearTimeout`
is the only interaction the loop has with it, and the callback sets neither
`commandComplete` nor cancels the pending read. -/
theorem claim_C2_timeout_code_behavior :
    readOutcome [storageCmd] = .stalled ⟨"", "", false, true⟩ ∧
    ∀ st, timeoutCallback st = (st, [timeoutToast]) :=
  ⟨by decide, fun _ => rfl⟩

/-! ### Claim theorems for the CSV cleanup pass -/

/-- Every line the cleanup loop emits is the header line or passes the
two-integer-fields row test. -/
theorem cleanLoop_valid :
    ∀ (ls : List String) (hf : Bool), ∀ t ∈ cleanLoop hf ls,
      t = "Timestamp,CO2_PPM" ∨ intPairLine t = true := by
  intro ls
  induction ls with
  | nil =>
    intro hf t ht
    simp [cleanLoop] at ht
  | cons line rest ih =>
    intro hf t ht
    simp only [cleanLoop] at ht
    split_ifs at ht with h1 h2 h3 h4 h5 h6
    · exact ih hf t ht
    · rcases List.mem_cons.mp ht with rfl | hm
      · exact Or.inl (by simpa using h2)
      · exact ih true t hm
    · rcases List.mem_cons.mp ht with rfl | hm
      · exact Or.inr h5
      · exact ih hf t hm
    · exact ih hf t ht
    · simp at ht
    · exact ih hf t ht
    · exact ih hf t ht

/-- **C3**: a data row whose fields fail to parse as integers (non-numeric
fields, wrong field count) is silently skipped by the segmenter's cleanup
pass and produces no sample. First conjunct: every line the cleanup emits
besides the header passes the two-integer-fields test, so a failing row
never reaches `parseCSVData`. Remaining conjuncts: on a whole transcript
the rows `"abc,def"` (non-numeric) and `"1,2,3"` (wrong field count) fail
the test and are dropped, while segmentation of the surrounding valid rows
`"10,400"` and `"20,500"` proceeds to a normal one-session success. -/
theorem claim_C3_invalid_rows_skipped :
    (∀ (ls : List String) (hf : Bool), ∀ t ∈ cleanLoop hf ls,
        t = "Timestamp,CO2_PPM" ∨ intPairLine t = true) ∧
    readOutcome [storageCmd, "Timestamp,CO2_PPM\n10,400\nabc,def\n1,2,3\n20,500\n", ">: "] =
      .success [⟨0, some 10, some 20, [⟨"10", some 400⟩, ⟨"20", some 500⟩]⟩] ∧
    intPairLine "abc,def" = false ∧ intPairLine "1,2,3" = false := by
  exact ⟨cleanLoop_valid, by decide, by decide, by decide⟩

/-- Witness for C3's universal conjunct at a singleton valid row. -/
theorem claim_C3_invalid_rows_skipped_witness :
    "10,400" ∈ cleanLoop true ["10,400"] ∧
    ("10,400" = "Timestamp,CO2_PPM" ∨ intPairLine "10,400" = true) :=
  ⟨by decide, claim_C3_invalid_rows_skipped.1 ["10,400"] true "10,400" (by decide)⟩

/-- **C4** counterexample: the post-header line `"abc,def"` fails the
row-validity test (its fields do not parse as integers), yet the cleanup
scan does not stop there — the later valid line `"5,6"` still contributes
a row, contradicting the claim that the scan stops at the first failing
line. -/
theorem claim_C4_counterexample :
    cleanLoop false ["Timestamp,CO2_PPM", "abc,def", "5,6"] = ["Timestamp,CO2_PPM", "5,6"] ∧
    intPairLine "abc,def" = false ∧
    "5,6" ∈ cleanLoop false ["Timestamp,CO2_PPM", "abc,def", "5,6"] :=
  ⟨by decide, by decide, by decide⟩

/-- **C4** amended: after the header has been seen, the scan stops —
treating it as end of payload, with no later line contributing — exactly at
the first line that contains `'>'` or trims to empty; a line that fails the
row-validity test for any other reason is skipped and the scan continues.
The three conjuncts cover every post-header line. Stop: a line containing
`'>'` or trimming to empty ends the scan, yielding no further rows. Skip:
any other non-header, non-empty, `'>'`-free line that is not a valid row —
a comma-line containing a `'storage'` token or with fields failing the
integer test, or a comma-free line — is skipped, the scan continuing on the
rest. Emit: a comma-line without `'>'` or `'storage'` passing the
two-integer-fields test (or the header line itself) is emitted and the
scan continues. -/
theorem claim_C4_amended :
    (∀ line rest, (jsIncludes (jsTrim line) ">" = true ∨ jsTrim line = "") →
        cleanLoop true (line :: rest) = []) ∧
    (∀ line rest, jsTrim line ≠ "Timestamp,CO2_PPM" →
        jsIncludes (jsTrim line) ">" = false → jsTrim line ≠ "" →
        (jsIncludes (jsTrim line) "," = true →
          jsIncludes (jsTrim line) "storage" = true ∨ intPairLine (jsTrim line) = false) →
        cleanLoop true (line :: rest) = cleanLoop true rest) ∧
    (∀ line rest, jsIncludes (jsTrim line) "," = true →
        jsIncludes (jsTrim line) ">" = false → jsIncludes (jsTrim line) "storage" = false →
        intPairLine (jsTrim line) = true →
        cleanLoop true (line :: rest) = jsTrim line :: cleanLoop true rest) := by
  refine ⟨?_, ?_, ?_⟩
  · intro line rest h
    have hne : jsTrim line ≠ "Timestamp,CO2_PPM" := by
      intro he
      rcases h with h | h
      · rw [he] at h
        exact absurd h (by decide)
      · rw [he] at h
        exact absurd h (by decide)
    rcases h with h | h
    · simp [cleanLoop, hne, h]
    · have e1 : jsIncludes "" "," = false := by decide
      simp [cleanLoop, hne, h, e1]
  · intro line rest hne hgt hemp hrow
    by_cases hc : jsIncludes (jsTrim line) "," = true
    · rcases hrow hc with hst | hip
      · simp [cleanLoop, hne, hgt, hemp, hc, hst]
      · by_cases hst : jsIncludes (jsTrim line) "storage" = true
        · simp [cleanLoop, hne, hgt, hemp, hc, hst]
        · simp only [Bool.not_eq_true] at hst
          simp [cleanLoop, hne, hgt, hemp, hc, hst, hip]
    · simp only [Bool.not_eq_true] at hc
      simp [cleanLoop, hne, hgt, hemp, hc]
  · intro line rest hc hgt hst hip
    by_cases hh : jsTrim line = "Timestamp,CO2_PPM"
    · simp [cleanLoop, hh]
    · simp [cleanLoop, hh, hc, hgt, hst, hip]

/-- Witness for C4's amended claim: a prompt line stops the scan; an
invalid comma-line and a comma-line carrying a `'storage'` token are both
skipped with the scan continuing; a valid row is emitted. -/
theorem claim_C4_amended_witness :
    (jsIncludes (jsTrim ">: ") ">" = true ∨ jsTrim ">: " = "") ∧
    cleanLoop true [">: ", "7,8"] = [] ∧
    intPairLine (jsTrim "abc,def") = false ∧
    cleanLoop true ["abc,def", "7,8"] = cleanLoop true ["7,8"] ∧
    jsIncludes (jsTrim "1,storage") "storage" = true ∧
    cleanLoop true ["1,storage", "7,8"] = cleanLoop true ["7,8"] ∧
    cleanLoop true ["7,8"] = jsTrim "7,8" :: cleanLoop true [] :=
  ⟨Or.inl (by decide),
   claim_C4_amended.1 ">: " ["7,8"] (Or.inl (by decide)),
   by decide,
   claim_C4_amended.2.1 "abc,def" ["7,8"] (by decide) (by decide) (by decide)
     (fun _ => Or.inr (by decide)),
   by decide,
   claim_C4_amended.2.1 "1,storage" ["7,8"] (by decide) (by decide) (by decide)
     (fun _ => Or.inl (by decide)),
   claim_C4_amended.2.2 "7,8" [] (by decide) (by decide) (by decide) (by decide)⟩

/-! ### Claim theorem for `disconnect` -/

/-- **C9**: with no active port, `disconnect` is a no-op — whatever the
reader/writer refs and the connected flag hold, and whether or not any of
the external close calls would fail, the state is returned unchanged, no
toast is shown and (the `catch` swallowing all throws) no error is
raised. -/
theorem claim_C9_disconnect_noop (st : ConnState)
    (cancelFails closeWriterFails closePortFails : Bool) :
    st.flipperPort = none →
    disconnect st cancelFails closeWriterFails closePortFails = (st, []) := by
  intro h
  simp [disconnect, h]

/-- Witness for C9 at a state with dangling reader/writer refs and failing
close calls. -/
theorem claim_C9_disconnect_noop_witness :
    (ConnState.mk none (some 1) (some 2) true).flipperPort = none ∧
    disconnect ⟨none, some 1, some 2, true⟩ true false true =
      (⟨none, some 1, some 2, true⟩, []) :=
  ⟨rfl, claim_C9_disconnect_noop ⟨none, some 1, some 2, true⟩ true false true rfl⟩

end ZeroDataExplorer
